import Mathlib

/-!
Verification development for `src/python/cohort_metadata.py`.

The script has two functions:
* `load_cohort_data(json_path)` — opens a file, parses it as JSON, and builds
  `pd.DataFrame(data['cohort_metadata'])`;
* `filter_cohort(df, criteria)` — copies `df` and, for each `(column, value)`
  pair of `criteria`, keeps the rows where
  `(df[column] >= value[0]) & (df[column] <= value[1])` when `value` is a
  tuple, and the rows where `df[column] == value` otherwise.

The shallow embedding below models the cell domain of the spec's data model
(string, number, null), pandas DataFrames as a column list plus row-oriented
records, and the pandas comparison operators actually exercised by the code:

* comparing a Series with a null scalar (`None`/`NaN`) yields an all-`False`
  mask for `==`, `>=`, `<=` (pandas `comparison_op` special-cases scalar NA);
* a null cell compares `False` against any scalar;
* an ordering comparison between a string cell and a numeric scalar (or the
  reverse) raises `TypeError`, propagated to the caller;
* `==` never raises on this domain: incompatible types compare unequal;
* `Series == list` converts the list to an array: it raises `ValueError`
  unless the lengths match, and otherwise compares elementwise;
* boolean-mask indexing `df[mask]` keeps exactly the `True`-marked rows in
  their original order;
* `df[column]` raises `KeyError` when `column` is not among the columns.

JSON numbers are modelled as integers (every number appearing in the spec's
and script's data is one); cells outside the spec §3 scalar domain
(string, number, null) are rejected by the embedding's frame builder, an
over-approximation of errors that no claim exercises.
-/

/-- A cell value of the table: the spec §3 scalar domain
(string, number, or null; pandas stores JSON `null` as missing/NA). -/
inductive Value where
  | vInt (n : Int)
  | vStr (s : String)
  | vNull
deriving DecidableEq, Repr

/-- The Python exceptions the script can surface. -/
inductive PyErr where
  | fileNotFoundError
  | jsonDecodeError
  | keyError
  | typeError
  | valueError
deriving DecidableEq, Repr

/-- A criteria entry's value, as discriminated by `isinstance(value, tuple)`
in `filter_cohort`: a Python tuple `(lo, hi)` selects the range branch,
anything else falls to the equality branch — modelled here as either a plain
scalar or a Python list (which pandas compares elementwise). -/
inductive CritVal where
  | scalar (v : Value)
  | tuple (lo hi : Value)
  | vlist (vs : List Value)
deriving DecidableEq, Repr

/-- A row: the cells of one record, keyed by column name. -/
abbrev Row := List (String × Value)

/-- A pandas DataFrame as built from a list of records: the column labels in
order, and the rows in order. -/
structure DataFrame where
  cols : List String
  rows : List Row
deriving DecidableEq, Repr

/-- The cell of `row` at column `c`; a record missing the key holds NA
(`pd.DataFrame` fills missing keys with `NaN`). -/
def getCell (row : Row) (c : String) : Value :=
  (row.lookup c).getD .vNull

/-- Elementwise `cell >= bound` as pandas evaluates `df[column] >= b`:
a null on either side yields `False`; `Int` against `Int` and `String`
against `String` compare by order; a string against a number raises
`TypeError`. -/
def cmpGe (cell bound : Value) : Except PyErr Bool :=
  match bound with
  | .vNull => .ok false
  | .vInt b =>
    match cell with
    | .vNull => .ok false
    | .vInt a => .ok (decide (b ≤ a))
    | .vStr _ => .error .typeError
  | .vStr b =>
    match cell with
    | .vNull => .ok false
    | .vStr a => .ok (decide (b ≤ a))
    | .vInt _ => .error .typeError

/-- Elementwise `cell <= bound`, same conventions as `cmpGe`. -/
def cmpLe (cell bound : Value) : Except PyErr Bool :=
  match bound with
  | .vNull => .ok false
  | .vInt b =>
    match cell with
    | .vNull => .ok false
    | .vInt a => .ok (decide (a ≤ b))
    | .vStr _ => .error .typeError
  | .vStr b =>
    match cell with
    | .vNull => .ok false
    | .vStr a => .ok (decide (a ≤ b))
    | .vInt _ => .error .typeError

/-- Elementwise `cell == v` as pandas evaluates `df[column] == v`: never
raises on this domain; NA on either side compares unequal; values of
different types compare unequal. -/
def valueEq (cell v : Value) : Bool :=
  match cell, v with
  | .vNull, _ => false
  | _, .vNull => false
  | .vInt a, .vInt b => decide (a = b)
  | .vStr a, .vStr b => decide (a = b)
  | _, _ => false

/-- Map a fallible function over a list, stopping at the first error —
the elementwise evaluation order of a pandas comparison over a column. -/
def exceptMap (f : α → Except PyErr β) : List α → Except PyErr (List β)
  | [] => .ok []
  | a :: l =>
    match f a with
    | .error e => .error e
    | .ok b =>
      match exceptMap f l with
      | .error e => .error e
      | .ok bs => .ok (b :: bs)

/-- The boolean mask of `df[column] >= bound` over the given rows. -/
def seriesGe (rows : List Row) (c : String) (bound : Value) : Except PyErr (List Bool) :=
  exceptMap (fun r => cmpGe (getCell r c) bound) rows

/-- The boolean mask of `df[column] <= bound` over the given rows. -/
def seriesLe (rows : List Row) (c : String) (bound : Value) : Except PyErr (List Bool) :=
  exceptMap (fun r => cmpLe (getCell r c) bound) rows

/-- The boolean mask of `df[column] == v` for a scalar `v` (never raises). -/
def seriesEqScalar (rows : List Row) (c : String) (v : Value) : List Bool :=
  rows.map (fun r => valueEq (getCell r c) v)

/-- The boolean mask of `df[column] == vs` for a Python list `vs`: pandas
converts the list to an array, raises `ValueError` unless the lengths match,
and otherwise compares elementwise. -/
def seriesEqList (rows : List Row) (c : String) (vs : List Value) :
    Except PyErr (List Bool) :=
  if rows.length = vs.length then
    .ok ((rows.zip vs).map (fun p => valueEq (getCell p.1 c) p.2))
  else
    .error .valueError

/-- `mask1 & mask2` on two aligned boolean Series. -/
def maskAnd (m1 m2 : List Bool) : List Bool :=
  m1.zipWith and m2

/-- Boolean-mask indexing `df[mask]`: keep the rows marked `True`,
in order. -/
def applyMask (rows : List Row) (mask : List Bool) : List Row :=
  ((rows.zip mask).filter (fun p => p.2)).map (fun p => p.1)

/-- One iteration of the loop in `filter_cohort`: `df[column]` raises
`KeyError` when the column is absent; a tuple criterion computes the two
range masks and conjoins them; any other criterion goes through `==`. -/
def filterStep (df : DataFrame) (column : String) (value : CritVal) :
    Except PyErr DataFrame :=
  if column ∈ df.cols then
    match value with
    | .tuple lo hi =>
      match seriesGe df.rows column lo with
      | .error e => .error e
      | .ok m1 =>
        match seriesLe df.rows column hi with
        | .error e => .error e
        | .ok m2 => .ok ⟨df.cols, applyMask df.rows (maskAnd m1 m2)⟩
    | .scalar v => .ok ⟨df.cols, applyMask df.rows (seriesEqScalar df.rows column v)⟩
    | .vlist vs =>
      match seriesEqList df.rows column vs with
      | .error e => .error e
      | .ok m => .ok ⟨df.cols, applyMask df.rows m⟩
  else
    .error .keyError

/-- The `for column, value in criteria.items()` loop of `filter_cohort`,
rebinding `filtered` at each step; a raised exception aborts the loop. -/
def runCriteria (df : DataFrame) : List (String × CritVal) → Except PyErr DataFrame
  | [] => .ok df
  | (c, v) :: rest =>
    match filterStep df c v with
    | .error e => .error e
    | .ok d => runCriteria d rest

/-- `filter_cohort(df, criteria)`: start from `df.copy()` (an equal, fresh
table) and fold the criteria over it in insertion order. -/
def filter_cohort (df : DataFrame) (criteria : List (String × CritVal)) :
    Except PyErr DataFrame :=
  runCriteria df criteria

deriving instance DecidableEq for Except

/-- The two-row example table `[{"a":1,"b":2},{"a":3,"b":4}]` used
throughout §8 of the spec. -/
def exTable : DataFrame :=
  ⟨["a", "b"],
   [[("a", .vInt 1), ("b", .vInt 2)], [("a", .vInt 3), ("b", .vInt 4)]]⟩

/-! ### The loader

`load_cohort_data(json_path)` performs, in order: `open(json_path)` (raises
`FileNotFoundError` when no file exists at the path), `json.load(f)` (raises
`json.JSONDecodeError` on malformed input), `data['cohort_metadata']`
(raises `KeyError` when the parsed object lacks the key, `TypeError` when
the parsed document is not an object), and `pd.DataFrame(...)` over the
extracted array.  The file system interaction is modelled by handing the
function the outcome of the first two steps: `none` — no file at the path;
`some none` — a file whose contents are not valid JSON; `some (some j)` —
a file parsing to the document `j`. -/

/-- A parsed JSON document. -/
inductive Json where
  | null
  | num (n : Int)
  | str (s : String)
  | arr (elems : List Json)
  | obj (fields : List (String × Json))

/-- Convert a JSON leaf to a cell value; a nested array or object is outside
the spec §3 scalar domain and rejected. -/
def jsonScalarToValue : Json → Except PyErr Value
  | .null => .ok .vNull
  | .num n => .ok (.vInt n)
  | .str s => .ok (.vStr s)
  | _ => .error .valueError

/-- Convert one JSON object of the `cohort_metadata` array to a row. -/
def rowOfObj : List (String × Json) → Except PyErr Row
  | [] => .ok []
  | (k, j) :: rest =>
    match jsonScalarToValue j with
    | .error e => .error e
    | .ok v =>
      match rowOfObj rest with
      | .error e => .error e
      | .ok r => .ok ((k, v) :: r)

/-- The column labels `pd.DataFrame` infers from a list of records: the
union of the row keys, in order of first appearance. -/
def unionKeys (objs : List (List (String × Json))) : List String :=
  objs.foldl
    (fun acc r =>
      r.foldl (fun acc2 kv => if kv.1 ∈ acc2 then acc2 else acc2 ++ [kv.1]) acc)
    []

/-- `pd.DataFrame(elems)` for `elems` the JSON array under `cohort_metadata`:
one row per array element, columns the union of the row keys.  An element
that is not an object is outside the shape §4.1 requires and rejected. -/
def dataFrameOfArray (elems : List Json) : Except PyErr DataFrame :=
  match exceptMap (fun j => match j with
      | Json.obj f => Except.ok f
      | _ => Except.error PyErr.valueError) elems with
  | .error e => .error e
  | .ok objs =>
    match exceptMap rowOfObj objs with
    | .error e => .error e
    | .ok rows => .ok ⟨unionKeys objs, rows⟩

/-- `load_cohort_data`: propagate the file and parse errors, then index the
parsed document with `'cohort_metadata'` and build the DataFrame. -/
def load_cohort_data (file : Option (Option Json)) : Except PyErr DataFrame :=
  match file with
  | none => .error .fileNotFoundError
  | some none => .error .jsonDecodeError
  | some (some data) =>
    match data with
    | .obj fields =>
      match fields.lookup "cohort_metadata" with
      | none => .error .keyError
      | some v =>
        match v with
        | .arr elems => dataFrameOfArray elems
        | _ => .error .valueError
    | _ => .error .typeError

/-! ### The object store

`filter_cohort` receives a reference to a DataFrame object.  To state that
it never mutates its argument, the pandas objects are laid out in an
explicit store: a list of DataFrames addressed by position.  Every pandas
operation the function uses (`df.copy()`, `df[column]`, a comparison, and
boolean-mask indexing) reads its operands and returns a fresh object, so the
imperative body only ever allocates. -/

/-- The store of live DataFrame objects, addressed by position. -/
abbrev Heap := List DataFrame

/-- Dereference `r` in `h`. -/
def readRef (h : Heap) (r : Nat) : DataFrame :=
  h.getD r ⟨[], []⟩

/-- Allocate a fresh object holding `d`, returning the extended store and
the new reference. -/
def alloc (h : Heap) (d : DataFrame) : Heap × Nat :=
  (h ++ [d], h.length)

/-- `df.copy()`: a fresh table with the same columns and rows. -/
def dfCopy (d : DataFrame) : DataFrame :=
  ⟨d.cols, d.rows⟩

/-- The loop of `filter_cohort` over the store: each iteration reads the
current `filtered` object, computes the reduced table, allocates it as a new
object and rebinds `filtered`; a raised exception leaves the store as it
stands. -/
def filterLoop (h : Heap) (fref : Nat) :
    List (String × CritVal) → Heap × Except PyErr Nat
  | [] => (h, .ok fref)
  | (c, v) :: rest =>
    match filterStep (readRef h fref) c v with
    | .error e => (h, .error e)
    | .ok d =>
      let p := alloc h d
      filterLoop p.1 p.2 rest

/-- `filter_cohort` over the store: `filtered = df.copy()` allocates the
copy, then the loop runs on it.  Returns the final store and, on success,
the reference holding the result. -/
def filter_cohort_imp (h : Heap) (dfRef : Nat)
    (criteria : List (String × CritVal)) : Heap × Except PyErr Nat :=
  let p := alloc h (dfCopy (readRef h dfRef))
  filterLoop p.1 p.2 criteria

/-! ### Spec-side definitions (from the spec's words, for comparison) -/

/-- Spec §4.2, from the spec's words: a row satisfies a scalar criterion
when "the row's value must equal it exactly", and a numeric range criterion
`(lo, hi)` when its value is `≥ lo` and `≤ hi`. -/
def specRowSatisfies (row : Row) (c : String) (cv : CritVal) : Bool :=
  match cv, getCell row c with
  | .scalar v, x => x == v
  | .tuple (.vInt lo) (.vInt hi), .vInt x => decide (lo ≤ x ∧ x ≤ hi)
  | _, _ => false

/-- A criterion value that is numeric throughout: a number scalar, or a
range with two number bounds. -/
def critShapeOK : CritVal → Bool
  | .scalar (.vInt _) => true
  | .tuple (.vInt _) (.vInt _) => true
  | _ => false

/-- The numeric well-formedness under which claim C2 speaks: the criterion's
column is present, its bounds or scalar are numbers, and every cell of that
column is a number. -/
def critNumericOK (df : DataFrame) (cv : String × CritVal) : Bool :=
  (decide (cv.1 ∈ df.cols)) &&
  critShapeOK cv.2 &&
  df.rows.all (fun r =>
    match getCell r cv.1 with
    | .vInt _ => true
    | _ => false)

/-! ### Helper lemmas -/

theorem applyMask_nil (mask : List Bool) : applyMask [] mask = [] := rfl

theorem applyMask_nil_mask (rows : List Row) : applyMask rows [] = [] := by
  cases rows <;> rfl

theorem applyMask_cons (r : Row) (rs : List Row) (b : Bool) (bs : List Bool) :
    applyMask (r :: rs) (b :: bs) =
      if b then r :: applyMask rs bs else applyMask rs bs := by
  cases b <;> rfl

theorem applyMask_sublist :
    ∀ (rows : List Row) (mask : List Bool), (applyMask rows mask).Sublist rows
  | [], _ => by simp [applyMask_nil]
  | _ :: _, [] => by simp [applyMask_nil_mask]
  | r :: rs, b :: bs => by
    rw [applyMask_cons]
    cases b with
    | false => exact (applyMask_sublist rs bs).cons r
    | true => exact (applyMask_sublist rs bs).cons₂ r

theorem applyMask_map (p : Row → Bool) :
    ∀ (rows : List Row), applyMask rows (rows.map p) = rows.filter p
  | [] => rfl
  | r :: rs => by
    rw [List.map_cons, applyMask_cons, List.filter_cons, applyMask_map p rs]

theorem maskAnd_map (p q : Row → Bool) :
    ∀ (rows : List Row),
      maskAnd (rows.map p) (rows.map q) = rows.map (fun r => p r && q r)
  | [] => rfl
  | r :: rs => by
    simp only [List.map_cons, maskAnd, List.zipWith_cons_cons]
    rw [← maskAnd, maskAnd_map p q rs]

theorem exceptMap_ok_map (f : α → Except PyErr β) (g : α → β) :
    ∀ (l : List α), (∀ a ∈ l, f a = .ok (g a)) → exceptMap f l = .ok (l.map g)
  | [], _ => rfl
  | a :: l, h => by
    have ha : f a = .ok (g a) := h a (List.mem_cons_self a l)
    have hl : exceptMap f l = .ok (l.map g) :=
      exceptMap_ok_map f g l (fun x hx => h x (List.mem_cons_of_mem a hx))
    simp [exceptMap, ha, hl]

theorem exceptMap_error_of_mem (f : α → Except PyErr β) (a : α) (e : PyErr) :
    ∀ (l : List α), a ∈ l → f a = .error e → ∃ e2, exceptMap f l = .error e2
  | [], h, _ => absurd h (List.not_mem_nil a)
  | b :: l, h, hfa => by
    unfold exceptMap
    cases hfb : f b with
    | error e3 => exact ⟨e3, rfl⟩
    | ok v =>
      have hal : a ∈ l := by
        rcases List.mem_cons.mp h with hab | hal
        · subst hab; rw [hfa] at hfb; exact absurd hfb (by simp)
        · exact hal
      obtain ⟨e2, h2⟩ := exceptMap_error_of_mem f a e l hal hfa
      exact ⟨e2, by simp [h2]⟩

/-- Boolean-mask filtering over any step of the loop only discards rows:
the surviving table has the same columns and an order-preserving
subsequence of the rows. -/
theorem filterStep_ok_shape (df : DataFrame) (c : String) (v : CritVal)
    (d : DataFrame) (h : filterStep df c v = .ok d) :
    d.cols = df.cols ∧ d.rows.Sublist df.rows := by
  unfold filterStep at h
  split at h
  · split at h
    · split at h
      · simp at h
      · split at h
        · simp at h
        · cases h; exact ⟨rfl, applyMask_sublist _ _⟩
    · cases h; exact ⟨rfl, applyMask_sublist _ _⟩
    · split at h
      · simp at h
      · cases h; exact ⟨rfl, applyMask_sublist _ _⟩
  · simp at h

theorem runCriteria_ok_shape :
    ∀ (criteria : List (String × CritVal)) (df out : DataFrame),
      runCriteria df criteria = .ok out →
      out.cols = df.cols ∧ out.rows.Sublist df.rows
  | [], df, out, h => by
    cases h
    exact ⟨rfl, List.Sublist.refl _⟩
  | (c, v) :: rest, df, out, h => by
    unfold runCriteria at h
    cases hstep : filterStep df c v with
    | error e => rw [hstep] at h; exact absurd h (by simp)
    | ok d =>
      rw [hstep] at h
      obtain ⟨hcols, hrows⟩ := filterStep_ok_shape df c v d hstep
      obtain ⟨hcols2, hrows2⟩ := runCriteria_ok_shape rest d out h
      exact ⟨hcols2.trans hcols, hrows2.trans hrows⟩

/-! ### Claims -/

/-- C1: the spec claims a `None` bound means "unbounded on that side", and
that filtering the example table with `{"a": (2, None)}` returns exactly the
second row.  The code instead evaluates `df["a"] <= None`, which pandas
turns into an all-`False` mask, so the result is empty — contradicting both
the spec and the script's own `# Minimum 10 mm²` comment on its
`(10, None)` example criterion.  This theorem evaluates the embedded code
at that failing input. -/
theorem filter_cohort_none_bound_drops_all :
    filter_cohort exTable [("a", .tuple (.vInt 2) .vNull)] =
      .ok ⟨["a", "b"], []⟩ := by decide

/-- C4: filtering with an empty criteria mapping returns the table
unchanged: the loop body never runs and the copy is returned as is. -/
theorem filter_cohort_empty_criteria (df : DataFrame) :
    filter_cohort df [] = .ok df := rfl

/-- C5: `load_cohort_data` surfaces an error whenever the file does not
exist, its contents are not valid JSON, or the parsed top-level object
lacks the `cohort_metadata` key. -/
theorem load_cohort_data_fails (file : Option (Option Json))
    (h : file = none ∨ file = some none ∨
      ∃ fields, file = some (some (.obj fields)) ∧
        (fields.lookup "cohort_metadata").isNone = true) :
    ∃ e, load_cohort_data file = .error e := by
  rcases h with h | h | ⟨fields, hf, hk⟩
  · exact ⟨.fileNotFoundError, by rw [h]; rfl⟩
  · exact ⟨.jsonDecodeError, by rw [h]; rfl⟩
  · refine ⟨.keyError, ?_⟩
    have hk2 : fields.lookup "cohort_metadata" = none :=
      Option.isNone_iff_eq_none.mp hk
    rw [hf]
    simp only [load_cohort_data, hk2]

/-- Witness for C5 at the concrete input "no file at the path". -/
theorem load_cohort_data_fails_witness :
    ∃ e, load_cohort_data none = .error e :=
  load_cohort_data_fails none (Or.inl rfl)

/-- C6: loading a document whose `cohort_metadata` is `[]` yields the empty
table, and loading `[{"a":1,"b":2},{"a":3,"b":4}]` yields the two-row table
with columns `a`, `b` (one row per element, columns the union of keys). -/
theorem load_cohort_data_examples :
    load_cohort_data (some (some (.obj [("cohort_metadata", .arr [])]))) =
        .ok ⟨[], []⟩ ∧
    load_cohort_data (some (some (.obj [("cohort_metadata", .arr
        [.obj [("a", .num 1), ("b", .num 2)],
         .obj [("a", .num 3), ("b", .num 4)]])]))) =
      .ok ⟨["a", "b"],
        [[("a", .vInt 1), ("b", .vInt 2)], [("a", .vInt 3), ("b", .vInt 4)]]⟩ :=
  ⟨rfl, rfl⟩

/-- C9: when `filter_cohort` succeeds, its output keeps the input's columns
and its rows are an order-preserving subsequence of the input's rows. -/
theorem filter_cohort_sublist (df out : DataFrame)
    (criteria : List (String × CritVal))
    (h : filter_cohort df criteria = .ok out) :
    out.cols = df.cols ∧ out.rows.Sublist df.rows :=
  runCriteria_ok_shape criteria df out h

/-- Witness for C9 at the `{"a": 1}` example. -/
theorem filter_cohort_sublist_witness :
    (⟨["a", "b"], [[("a", Value.vInt 1), ("b", Value.vInt 2)]]⟩ :
        DataFrame).cols = exTable.cols ∧
    ([[("a", Value.vInt 1), ("b", Value.vInt 2)]] :
        List Row).Sublist exTable.rows :=
  filter_cohort_sublist exTable _ [("a", .scalar (.vInt 1))] (by decide)

/-- C3: a criteria entry whose column is absent from the table makes
`filter_cohort` fail (the `KeyError` from `df[column]`, or an error raised
by an earlier criterion) rather than being silently ignored. -/
theorem filter_cohort_missing_column :
    ∀ (criteria : List (String × CritVal)) (df : DataFrame)
      (c : String) (v : CritVal),
      (c, v) ∈ criteria → c ∉ df.cols →
      ∃ e, filter_cohort df criteria = .error e
  | [], _, _, _, hmem, _ => absurd hmem (List.not_mem_nil _)
  | (c0, v0) :: rest, df, c, v, hmem, hc => by
    show ∃ e, runCriteria df ((c0, v0) :: rest) = .error e
    unfold runCriteria
    cases hstep : filterStep df c0 v0 with
    | error e => exact ⟨e, rfl⟩
    | ok d =>
      rcases List.mem_cons.mp hmem with heq | hmem2
      · have hc0 : c0 = c := congrArg Prod.fst heq.symm
        subst hc0
        unfold filterStep at hstep
        rw [if_neg hc] at hstep
        exact absurd hstep (by simp)
      · have hcols : d.cols = df.cols := (filterStep_ok_shape df c0 v0 d hstep).1
        have hcd : c ∉ d.cols := by rw [hcols]; exact hc
        exact filter_cohort_missing_column rest d c v hmem2 hcd

/-- Witness for C3: criteria key `"z"` is not a column of the example
table, and filtering fails. -/
theorem filter_cohort_missing_column_witness :
    ∃ e, filter_cohort exTable [("z", .scalar (.vInt 1))] = .error e :=
  filter_cohort_missing_column [("z", .scalar (.vInt 1))] exTable
    "z" (.scalar (.vInt 1)) (List.mem_cons_self _ _) (by decide)

/-- C7: a disallowed comparison is an error, not a silent inclusion or
exclusion: when some row of the table holds a string in column `c` and a
range criterion on `c` carries a numeric lower bound, `filter_cohort` fails
with the comparison's `TypeError` (or with an error an earlier criterion
raised first) instead of producing a table. -/
theorem filter_cohort_incompatible_comparison (df : DataFrame) (c : String)
    (lo : Int) (hi : Value) (rest : List (String × CritVal))
    (hc : c ∈ df.cols)
    (hs : df.rows.any (fun r =>
      match getCell r c with
      | .vStr _ => true
      | _ => false) = true) :
    ∃ e, filter_cohort df ((c, .tuple (.vInt lo) hi) :: rest) = .error e := by
  obtain ⟨r, hr, hstr⟩ := List.any_eq_true.mp hs
  have hcell : ∃ s, getCell r c = .vStr s := by
    cases hceq : getCell r c with
    | vStr s => exact ⟨s, rfl⟩
    | vInt n => rw [hceq] at hstr; simp at hstr
    | vNull => rw [hceq] at hstr; simp at hstr
  obtain ⟨s, hset⟩ := hcell
  have herr : cmpGe (getCell r c) (.vInt lo) = .error .typeError := by
    rw [hset]; rfl
  obtain ⟨e2, hmap⟩ := exceptMap_error_of_mem
    (fun r => cmpGe (getCell r c) (.vInt lo)) r .typeError df.rows hr herr
  have hstep : filterStep df c (.tuple (.vInt lo) hi) = .error e2 := by
    simp [filterStep, seriesGe, hc, hmap]
  exact ⟨e2, by simp [filter_cohort, runCriteria, hstep]⟩

/-- Witness for C7: a one-row table whose `a` cell is the string `"x"`,
filtered with the numeric range `(1, 2)` on `a`. -/
theorem filter_cohort_incompatible_comparison_witness :
    ∃ e, filter_cohort ⟨["a"], [[("a", .vStr "x")]]⟩
      [("a", .tuple (.vInt 1) (.vInt 2))] = .error e :=
  filter_cohort_incompatible_comparison ⟨["a"], [[("a", .vStr "x")]]⟩
    "a" 1 (.vInt 2) [] (by decide) (by decide)

/-! ### The conjunctive characterisation of numeric filtering (C2) -/

/-- Unpack `critNumericOK`: membership of the column. -/
theorem critNumericOK_mem (df : DataFrame) (cv : String × CritVal)
    (h : critNumericOK df cv = true) : cv.1 ∈ df.cols := by
  unfold critNumericOK at h
  rw [Bool.and_eq_true, Bool.and_eq_true] at h
  exact of_decide_eq_true h.1.1

/-- Unpack `critNumericOK`: every cell of the criterion's column is a
number. -/
theorem critNumericOK_cells (df : DataFrame) (cv : String × CritVal)
    (h : critNumericOK df cv = true) :
    ∀ r ∈ df.rows, ∃ a, getCell r cv.1 = Value.vInt a := by
  unfold critNumericOK at h
  rw [Bool.and_eq_true] at h
  intro r hr
  have h2 := List.all_eq_true.mp h.2 r hr
  cases hceq : getCell r cv.1 with
  | vInt a => exact ⟨a, rfl⟩
  | vStr s => rw [hceq] at h2; simp at h2
  | vNull => rw [hceq] at h2; simp at h2

/-- `critNumericOK` survives passing to a table with the same columns and
fewer rows — as each loop iteration produces. -/
theorem critNumericOK_mono (df d : DataFrame) (hcols : d.cols = df.cols)
    (hrows : d.rows.Sublist df.rows) (cv : String × CritVal)
    (h : critNumericOK df cv = true) : critNumericOK d cv = true := by
  unfold critNumericOK at h ⊢
  rw [Bool.and_eq_true, Bool.and_eq_true] at h
  rw [Bool.and_eq_true, Bool.and_eq_true]
  refine ⟨⟨?_, h.1.2⟩, ?_⟩
  · rw [hcols]; exact h.1.1
  · exact List.all_eq_true.mpr fun r hr =>
      List.all_eq_true.mp h.2 r (hrows.subset hr)

/-- One numeric criterion behaves as the spec §4.2 predicate: the step
keeps exactly the rows satisfying it. -/
theorem filterStep_numeric (df : DataFrame) (c : String) (cv : CritVal)
    (h : critNumericOK df (c, cv) = true) :
    filterStep df c cv =
      .ok ⟨df.cols, df.rows.filter (fun r => specRowSatisfies r c cv)⟩ := by
  have hmem : c ∈ df.cols := critNumericOK_mem df (c, cv) h
  have hcells := critNumericOK_cells df (c, cv) h
  have hshape : critShapeOK cv = true := by
    unfold critNumericOK at h
    rw [Bool.and_eq_true, Bool.and_eq_true] at h
    exact h.1.2
  cases cv with
  | vlist vs => simp [critShapeOK] at hshape
  | scalar v =>
    cases v with
    | vStr s => simp [critShapeOK] at hshape
    | vNull => simp [critShapeOK] at hshape
    | vInt b =>
      have hmask : seriesEqScalar df.rows c (.vInt b) =
          df.rows.map (fun r => specRowSatisfies r c (.scalar (.vInt b))) := by
        refine List.map_congr_left fun r hr => ?_
        obtain ⟨a, ha⟩ := hcells r hr
        simp only [specRowSatisfies, valueEq, ha]
        exact decide_eq_decide.mpr ⟨congrArg Value.vInt, Value.vInt.inj⟩
      simp only [filterStep, hmem, if_true, hmask, applyMask_map]
  | tuple lo hi =>
    cases lo with
    | vStr s => simp [critShapeOK] at hshape
    | vNull => simp [critShapeOK] at hshape
    | vInt l =>
      cases hi with
      | vStr s => simp [critShapeOK] at hshape
      | vNull => simp [critShapeOK] at hshape
      | vInt u =>
        have hGe : seriesGe df.rows c (.vInt l) =
            .ok (df.rows.map (fun r =>
              match getCell r c with
              | .vInt a => decide (l ≤ a)
              | _ => false)) := by
          refine exceptMap_ok_map _ _ _ fun r hr => ?_
          obtain ⟨a, ha⟩ := hcells r hr
          rw [ha]; rfl
        have hLe : seriesLe df.rows c (.vInt u) =
            .ok (df.rows.map (fun r =>
              match getCell r c with
              | .vInt a => decide (a ≤ u)
              | _ => false)) := by
          refine exceptMap_ok_map _ _ _ fun r hr => ?_
          obtain ⟨a, ha⟩ := hcells r hr
          rw [ha]; rfl
        have hpt : df.rows.filter (fun r =>
            (match getCell r c with
              | .vInt a => decide (l ≤ a)
              | _ => false) &&
            (match getCell r c with
              | .vInt a => decide (a ≤ u)
              | _ => false)) =
            df.rows.filter (fun r =>
              specRowSatisfies r c (.tuple (.vInt l) (.vInt u))) := by
          refine List.filter_congr fun r hr => ?_
          obtain ⟨a, ha⟩ := hcells r hr
          simp [specRowSatisfies, ha]
        simp only [filterStep, hmem, if_true, hGe, hLe]
        rw [maskAnd_map, applyMask_map, hpt]

/-- C2: for numeric data — every criterion names a present column, carries
numeric bounds or a numeric scalar, and meets numeric cells —
`filter_cohort` succeeds and returns exactly the rows satisfying all
criteria conjunctively: inclusive on both range ends, exact equality for
scalars. -/
theorem filter_cohort_conjunctive :
    ∀ (criteria : List (String × CritVal)) (df : DataFrame),
      criteria.all (critNumericOK df) = true →
      filter_cohort df criteria =
        .ok ⟨df.cols, df.rows.filter
          (fun r => criteria.all (fun cv => specRowSatisfies r cv.1 cv.2))⟩
  | [], df, _ => by
    show Except.ok df = Except.ok ⟨df.cols, df.rows.filter fun _ => true⟩
    rw [List.filter_eq_self.mpr fun (r : Row) _ => rfl]
  | (c, v) :: rest, df, h => by
    rw [List.all_cons, Bool.and_eq_true] at h
    have hstep := filterStep_numeric df c v h.1
    have hmono : rest.all (critNumericOK
        (⟨df.cols, df.rows.filter
          (fun r => specRowSatisfies r c v)⟩ : DataFrame)) = true :=
      List.all_eq_true.mpr fun cv hcv =>
        critNumericOK_mono df
          ⟨df.cols, df.rows.filter (fun r => specRowSatisfies r c v)⟩
          rfl (List.filter_sublist df.rows) cv
          (List.all_eq_true.mp h.2 cv hcv)
    have hrec : runCriteria
        (⟨df.cols, df.rows.filter
          (fun r => specRowSatisfies r c v)⟩ : DataFrame) rest =
        .ok ⟨df.cols, (df.rows.filter
          (fun r => specRowSatisfies r c v)).filter
            (fun r => rest.all (fun cv => specRowSatisfies r cv.1 cv.2))⟩ :=
      filter_cohort_conjunctive rest
        ⟨df.cols, df.rows.filter (fun r => specRowSatisfies r c v)⟩ hmono
    show runCriteria df ((c, v) :: rest) = _
    simp only [runCriteria, hstep, hrec, List.filter_filter]
    refine congrArg _ (congrArg _ (List.filter_congr fun r _ => ?_))
    rw [List.all_cons, Bool.and_comm]

/-- Witness for C2 at the `{"a": 1}` example: exactly the first row
survives. -/
theorem filter_cohort_conjunctive_witness :
    filter_cohort exTable [("a", .scalar (.vInt 1))] =
      .ok ⟨exTable.cols, exTable.rows.filter
        (fun r => [("a", CritVal.scalar (.vInt 1))].all
          (fun cv => specRowSatisfies r cv.1 cv.2))⟩ :=
  filter_cohort_conjunctive [("a", .scalar (.vInt 1))] exTable (by decide)

/-! ### The frame property of the imperative body (C8) -/

theorem readRef_append_lt :
    ∀ (h ext : Heap) (r : Nat), r < h.length →
      readRef (h ++ ext) r = readRef h r
  | [], _, r, hr => absurd hr (by simp)
  | _ :: _, _, 0, _ => rfl
  | d :: t, ext, r + 1, hr =>
    readRef_append_lt t ext r (Nat.lt_of_succ_lt_succ hr)

theorem readRef_alloc_new :
    ∀ (h : Heap) (d : DataFrame), readRef (h ++ [d]) h.length = d
  | [], _ => rfl
  | _ :: t, d => readRef_alloc_new t d

/-- The loop of `filter_cohort` only appends fresh objects to the store,
and on success the final reference holds exactly what the pure
`runCriteria` computes from the starting table. -/
theorem filterLoop_spec :
    ∀ (cs : List (String × CritVal)) (h : Heap) (fref : Nat),
      fref < h.length →
      (∃ ext, (filterLoop h fref cs).1 = h ++ ext) ∧
      (∀ n, (filterLoop h fref cs).2 = .ok n →
        fref ≤ n ∧ n < (filterLoop h fref cs).1.length ∧
        runCriteria (readRef h fref) cs =
          .ok (readRef (filterLoop h fref cs).1 n))
  | [], h, fref, hf => by
    refine ⟨⟨[], (List.append_nil h).symm⟩, ?_⟩
    intro n hn
    cases hn
    exact ⟨Nat.le_refl _, hf, rfl⟩
  | (c, v) :: cs, h, fref, hf => by
    cases hstep : filterStep (readRef h fref) c v with
    | error e =>
      simp only [filterLoop, hstep]
      refine ⟨⟨[], (List.append_nil h).symm⟩, ?_⟩
      intro n hn
      exact absurd hn (by simp)
    | ok d =>
      simp only [filterLoop, hstep, alloc]
      have hf2 : h.length < (h ++ [d]).length := by simp
      obtain ⟨⟨ext, hext⟩, hok⟩ := filterLoop_spec cs (h ++ [d]) h.length hf2
      refine ⟨⟨[d] ++ ext, by rw [hext, List.append_assoc]⟩, ?_⟩
      intro n hn
      obtain ⟨hle, hlt, hrun⟩ := hok n hn
      refine ⟨Nat.le_trans (Nat.le_of_lt hf) hle, hlt, ?_⟩
      rw [readRef_alloc_new] at hrun
      simp only [runCriteria, hstep]
      exact hrun

/-- C8: `filter_cohort` does not mutate its argument.  Running the
imperative body over the object store leaves the input table's object
untouched whether the call succeeds or raises, and on success the result is
a freshly allocated object (its reference is new) holding the pure
function's output — a new reduced copy. -/
theorem filter_cohort_imp_frame (h : Heap) (r : Nat)
    (cs : List (String × CritVal)) (hr : r < h.length) :
    readRef (filter_cohort_imp h r cs).1 r = readRef h r ∧
    ∀ n, (filter_cohort_imp h r cs).2 = .ok n →
      h.length ≤ n ∧
      filter_cohort (readRef h r) cs =
        .ok (readRef (filter_cohort_imp h r cs).1 n) := by
  have hf : h.length < (h ++ [dfCopy (readRef h r)]).length := by simp
  obtain ⟨⟨ext, hext⟩, hok⟩ :=
    filterLoop_spec cs (h ++ [dfCopy (readRef h r)]) h.length hf
  have himp : filter_cohort_imp h r cs =
      filterLoop (h ++ [dfCopy (readRef h r)]) h.length cs := rfl
  rw [himp]
  constructor
  · rw [hext, List.append_assoc]
    exact readRef_append_lt h _ r hr
  · intro n hn
    obtain ⟨hle, _, hrun⟩ := hok n hn
    rw [readRef_alloc_new] at hrun
    exact ⟨hle, hrun⟩

/-- Witness for C8: one table in the store, filtered on `{"a": 1}` — the
input object at reference 0 is untouched, and the fresh reference 2 holds
the pure result. -/
theorem filter_cohort_imp_frame_witness :
    readRef (filter_cohort_imp [exTable] 0
      [("a", .scalar (.vInt 1))]).1 0 = readRef [exTable] 0 ∧
    (List.length [exTable] ≤ 2 ∧
     filter_cohort (readRef [exTable] 0) [("a", .scalar (.vInt 1))] =
       .ok (readRef (filter_cohort_imp [exTable] 0
         [("a", .scalar (.vInt 1))]).1 2)) :=
  ⟨(filter_cohort_imp_frame [exTable] 0
      [("a", .scalar (.vInt 1))] (by decide)).1,
   (filter_cohort_imp_frame [exTable] 0
      [("a", .scalar (.vInt 1))] (by decide)).2 2 (by decide)⟩

/-! ### Dispatch on the criterion's type (C10) -/

/-- Counterexample to C10 as stated: the claim says a two-element list is
treated as a scalar equality criterion, so that a row passes only if its
value equals that list exactly — under which no row of the example table
could pass, the cells being numbers.  In the code, pandas compares
`df["a"] == [1, 3]` elementwise, and both rows of the example table pass
(`1 == 1` and `3 == 3`), so the full two-row table comes back. -/
theorem filter_cohort_list_scalar_cex :
    filter_cohort exTable [("a", .vlist [.vInt 1, .vInt 3])] = .ok exTable ∧
    exTable.rows.length = 2 := by decide

theorem applyMask_zip_map (g : Row × Value → Bool) :
    ∀ (rows : List Row) (vs : List Value), rows.length = vs.length →
      applyMask rows ((rows.zip vs).map g) =
        ((rows.zip vs).filter g).map (fun p => p.1)
  | [], [], _ => rfl
  | [], _ :: _, h => by simp at h
  | _ :: _, [], h => by simp at h
  | r :: rs, v :: vs, h => by
    have h2 : rs.length = vs.length := by simpa using h
    rw [List.zip_cons_cons, List.map_cons, applyMask_cons, List.filter_cons]
    cases hg : g (r, v) <;> simp [hg, applyMask_zip_map g rs vs h2]

/-- C10 as amended: `filter_cohort` dispatches on the criterion value's
type — only a tuple selects the range branch; any other value falls to the
equality branch.  There, a list is not a scalar equality test: pandas
compares it elementwise against the column, raising `ValueError` unless the
list's length equals the current number of rows, and otherwise keeping
row `i` iff its value equals the list's `i`-th element. -/
theorem filter_cohort_list_elementwise (df : DataFrame) (c : String)
    (vs : List Value) (hc : c ∈ df.cols) :
    filter_cohort df [(c, .vlist vs)] =
      if df.rows.length = vs.length then
        .ok ⟨df.cols, ((df.rows.zip vs).filter
          (fun p => valueEq (getCell p.1 c) p.2)).map (fun p => p.1)⟩
      else .error .valueError := by
  by_cases hlen : df.rows.length = vs.length
  · rw [if_pos hlen]
    have hser : seriesEqList df.rows c vs =
        .ok ((df.rows.zip vs).map (fun p => valueEq (getCell p.1 c) p.2)) := by
      unfold seriesEqList
      rw [if_pos hlen]
    simp only [filter_cohort, runCriteria, filterStep, hc, if_true, hser]
    rw [applyMask_zip_map _ df.rows vs hlen]
  · rw [if_neg hlen]
    have hser : seriesEqList df.rows c vs = .error .valueError := by
      unfold seriesEqList
      rw [if_neg hlen]
    simp only [filter_cohort, runCriteria, filterStep, hc, if_true, hser]

/-- Witness for the amended C10 at the counterexample's input. -/
theorem filter_cohort_list_elementwise_witness :
    filter_cohort exTable [("a", .vlist [.vInt 1, .vInt 3])] =
      if exTable.rows.length = [Value.vInt 1, Value.vInt 3].length then
        .ok ⟨exTable.cols, ((exTable.rows.zip [Value.vInt 1, Value.vInt 3]).filter
          (fun p => valueEq (getCell p.1 "a") p.2)).map (fun p => p.1)⟩
      else .error .valueError :=
  filter_cohort_list_elementwise exTable "a" [.vInt 1, .vInt 3] (by decide)
